import Mathlib

/-!
# Verification of the sakura-ai retrieval pipeline

A shallow embedding, in Lean 4, of the retrieval-pipeline components of the
sakura-ai repository (Canvas course question answering): the text chunker
(`utils/text_splitter.py`), the content cache (`utils/cache.py`), the rate
limiter (`canvas_api/rate_limiter.py`), the FAISS index persistence layer and
chunk retrieval (`processing/retriever.py`, `course_index/search.py`), the
section ranker (`processing/section_picker.py`), the course matcher
(`processing/course_matcher.py`), the announcement fetcher
(`canvas_api/fetch_section_data.py`) and the RAG orchestration
(`qa_engine_rag.py`).

Python strings are modelled as `List Char`, machine floats that only carry
data (embedding vectors) as `Rat`, `datetime` instants as natural-number
seconds, and the filesystem as an association list from paths to artifacts.
External collaborators (the OpenAI/Gemini LLM calls, the FAISS native search
routine, `dateutil` string parsing, Python `eval`) are passed in as explicit
oracle parameters.  Python exceptions are modelled with `Except`.

An important fact about the source: `processing/retriever.py` defines
`retrieve_chunks` twice (lines 71-115 and lines 120-130) and
`save_faiss_index` twice (lines 39-69 and lines 132-152).  Python module
semantics makes the *later* definition the effective one, so the embeddings
below of `retrieve_chunks` and `save_faiss_index` follow the later
definitions; the earlier ones are dead code.
-/

namespace SakuraAI

/-- Python exception kinds that appear in the modelled code paths. -/
inductive PyErr where
  | typeError
  | valueError
  | fileNotFoundError
  | indexError
  deriving DecidableEq, Repr

/-! ## Python character and string primitives -/

/-- Python `str.isspace` / regex `\s` for the ASCII range (the inputs the
pipeline handles are ASCII HTML-derived text). -/
def pyIsSpace (c : Char) : Bool :=
  c == ' ' || c == '\t' || c == '\n' || c == '\r' || c == '\x0b' || c == '\x0c'

/-- Regex `\w` (word character) in the ASCII range: letters, digits, underscore. -/
def isWordChar (c : Char) : Bool :=
  c.isAlpha || c.isDigit || c == '_'

/-- Python `str.strip()`: drop leading and trailing whitespace. -/
def pyStrip (l : List Char) : List Char :=
  ((l.dropWhile pyIsSpace).reverse.dropWhile pyIsSpace).reverse

/-- Helper for `re.sub(r'[\s\n]+', ' ', text)`: scan the text, emitting a
single `' '` for every maximal whitespace run.  The flag records whether the
previously read character was whitespace (i.e. whether we are inside a run
whose single replacement space has already been emitted). -/
def collapseWSAux : Bool → List Char → List Char
  | _, [] => []
  | inRun, c :: rest =>
    if pyIsSpace c then
      if inRun then collapseWSAux true rest
      else ' ' :: collapseWSAux true rest
    else c :: collapseWSAux false rest

/-- `re.sub(r'[\s\n]+', ' ', text)`: collapse every maximal whitespace run to
a single space. -/
def collapseWS (l : List Char) : List Char :=
  collapseWSAux false l

/-- `clean_text` (utils/text_splitter.py lines 8-13):
`re.sub(r'[\s\n]+', ' ', text).strip()`. -/
def cleanText (l : List Char) : List Char :=
  pyStrip (collapseWS l)

/-- Python slice-index semantics used by `str.rfind(sub, start, end)`:
negative indices count from the end, then the result is clamped to
`[0, len]`. -/
def pySliceIdx (len : Nat) (i : Int) : Nat :=
  if i < 0 then ((len : Int) + i).toNat else min i.toNat len

/-- Python `text.rfind('.', start, end)`: the highest index `j` with
`start ≤ j < end` (after slice normalization) such that `text[j] = c`,
or `-1` if there is none. -/
def pyRfind (l : List Char) (c : Char) (start fin : Int) : Int :=
  let s := pySliceIdx l.length start
  let e := pySliceIdx l.length fin
  ((List.range l.length).filter
      (fun j => decide (s ≤ j) && decide (j < e) && (l.getD j ' ' == c))).foldl
    (fun _ j => (j : Int)) (-1)

/-! ## Chunker: `split_text` (utils/text_splitter.py lines 15-50)

The `while current_pos < text_len` loop is modelled with an explicit fuel
parameter counting loop iterations; `none` means the given fuel was
exhausted without the loop finishing.  All other state is carried exactly
as in the source. -/

/-- The body of the `while` loop of `split_text`, one constructor of fuel per
iteration.  `pos` is `current_pos`, `acc` is `chunks`. -/
def splitTextLoop (text : List Char) (chunkSize chunkOverlap : Nat) :
    Nat → Nat → List (List Char) → Option (List (List Char))
  | 0, _, _ => none
  | fuel + 1, pos, acc =>
    if pos < text.length then
      -- chunk_end = min(current_pos + chunk_size, text_len)
      let cend0 := min (pos + chunkSize) text.length
      -- sentence-boundary adjustment, only when not at the end of the text
      let cend :=
        if cend0 < text.length then
          let lookBack := min 100 (chunkSize / 4)
          let lastPeriod := pyRfind text '.' ((cend0 : Int) - (lookBack : Int)) (cend0 : Int)
          if lastPeriod ≠ -1 then lastPeriod.toNat + 1 else cend0
        else cend0
      -- chunk = text[current_pos:chunk_end].strip()
      let chunk := pyStrip ((text.drop pos).take (cend - pos))
      let acc' := if chunk ≠ [] then acc ++ [chunk] else acc
      -- current_pos = chunk_end - chunk_overlap; clamped at 0
      -- (Nat subtraction truncates at 0 exactly like the `if current_pos < 0`
      -- clamp in the source)
      splitTextLoop text chunkSize chunkOverlap fuel (cend - chunkOverlap) acc'
    else some acc

/-- `split_text(text, chunk_size, chunk_overlap)` (utils/text_splitter.py
lines 15-50): empty input returns `[]` immediately; otherwise the text is
normalized by `clean_text` and the chunking loop runs. -/
def splitText (fuel : Nat) (text : List Char) (chunkSize chunkOverlap : Nat) :
    Option (List (List Char)) :=
  if text = [] then some []
  else splitTextLoop (cleanText text) chunkSize chunkOverlap fuel 0 []

/-! ### C1: the chunking loop never terminates on non-empty input

With the default parameters (`chunk_size = 1500`, `chunk_overlap = 150`) the
final loop iteration sets `current_pos = chunk_end - chunk_overlap` even when
`chunk_end = text_len`, so `current_pos` lands strictly before `text_len`
(clamped at 0) and the iteration repeats forever. -/

/-- On the cleaned text `"hi"` one loop iteration appends the chunk `"hi"`
and returns `current_pos` to `0`: the loop state repeats. -/
theorem splitTextLoop_hi_step (fuel : Nat) (acc : List (List Char)) :
    splitTextLoop ['h', 'i'] 1500 150 (fuel + 1) 0 acc
      = splitTextLoop ['h', 'i'] 1500 150 fuel 0 (acc ++ [['h', 'i']]) := rfl

/-- The chunking loop exhausts any amount of fuel on the text `"hi"`. -/
theorem splitTextLoop_hi_diverges (fuel : Nat) :
    ∀ acc, splitTextLoop ['h', 'i'] 1500 150 fuel 0 acc = none := by
  induction fuel with
  | zero => intro acc; rfl
  | succ n ih => intro acc; rw [splitTextLoop_hi_step]; exact ih _

/-- **C1** (code bug): the claim states that `split_text` terminates for every
input text and every `chunkSize ≥ 1`, covering the normalized input, with
empty input yielding an empty sequence.  The code violates the termination
part: with the default parameters (`chunk_size = 1500`, `chunk_overlap = 150`)
the loop never terminates on *any* non-empty input, because after the final
chunk (`chunk_end = text_len`) the position is set to
`text_len - chunk_overlap < text_len` and the iteration repeats identically
forever.  Witnessed here on the input `"hi"`: no amount of loop fuel makes
the function return.  The empty-input part of the claim does hold. -/
theorem split_text_diverges_on_nonempty_input :
    (∀ fuel, splitText fuel ['h', 'i'] 1500 150 = none) ∧
    (∀ fuel, splitText fuel [] 1500 150 = some []) := by
  refine ⟨fun fuel => ?_, fun fuel => rfl⟩
  show splitTextLoop (cleanText ['h', 'i']) 1500 150 fuel 0 [] = none
  exact splitTextLoop_hi_diverges fuel []

/-! ## ContentCache: `get_cached_content` (utils/cache.py)

The module-level store is `_cache = TTLCache(maxsize=100, ttl=3600)` from
`cachetools`: a bounded LRU cache in which *every* entry expires 3600 seconds
after it was stored — the TTL is fixed at cache construction, it is not
per-entry.  Entries are modelled most-recently-used first. -/

/-- One entry of a `cachetools.TTLCache`: key, value, store time (seconds). -/
structure TTLEntry where
  key : List Char
  val : Nat
  stored : Nat
  deriving DecidableEq, Repr

/-- A `cachetools.TTLCache`: the constructor-fixed `ttl`, the capacity bound
`maxsize`, and the entries, most recently used first. -/
structure TTLCacheState where
  ttl : Nat
  maxsize : Nat
  entries : List TTLEntry
  deriving Repr

/-- An entry is unexpired at `now` iff less than the cache-wide `ttl` has
elapsed since it was stored. -/
def ttlFresh (ttl now : Nat) (e : TTLEntry) : Bool :=
  now < e.stored + ttl

/-- `cache_key in _cache` / `_cache[cache_key]`: an unexpired entry under
the key, if any. -/
def ttlLookup (cache : TTLCacheState) (k : List Char) (now : Nat) : Option Nat :=
  ((cache.entries.filter (ttlFresh cache.ttl now)).find? (fun e => e.key == k)).map (·.val)

/-- `_cache[cache_key] = content`: discard expired entries and any previous
entry under the key, insert the new entry at the most-recent position, and
evict least-recently-used entries beyond `maxsize`. -/
def ttlSet (cache : TTLCacheState) (k : List Char) (v now : Nat) : TTLCacheState :=
  let kept := (cache.entries.filter (ttlFresh cache.ttl now)).filter (fun e => !(e.key == k))
  { cache with entries := (TTLEntry.mk k v now :: kept).take cache.maxsize }

/-- The module-level `_cache = TTLCache(maxsize=100, ttl=3600)`. -/
def initCache : TTLCacheState :=
  ⟨3600, 100, []⟩

/-- `cache_key = f"{key}:{ttl}"` — the `ttl` argument is folded into the key
string (and nothing else). -/
def cacheKeyOf (key : List Char) (ttl : Nat) : List Char :=
  key ++ ':' :: (Nat.repr ttl).data

/-- `get_cached_content(key, fetch_func, ttl)` (utils/cache.py lines 7-26).
`fetchVal` is the value `fetch_func()` would produce at this call; the
returned `Bool` records whether `fetch_func` was invoked. -/
def get_cached_content (key : List Char) (fetchVal ttl now : Nat)
    (cache : TTLCacheState) : Nat × TTLCacheState × Bool :=
  let ck := cacheKeyOf key ttl
  match ttlLookup cache ck now with
  | some v => (v, cache, false)
  | none => (fetchVal, ttlSet cache ck fetchVal now, true)

/-- Two successive `get_cached_content` calls on the fresh module cache, with
the same key and `ttl` argument, at times `t1` and `t2`; returns how many
times `fetch_func` was invoked. -/
def twoCallFetches (key : List Char) (ttl t1 t2 : Nat) : Nat :=
  let r1 := get_cached_content key 1 ttl t1 initCache
  let r2 := get_cached_content key 2 ttl t2 r1.2.1
  (if r1.2.2 then 1 else 0) + (if r2.2.2 then 1 else 0)

/-- **C4** (code bug): the claim states that two `getOrFetch(k, f, ttl)` calls
within `ttl` invoke `f` at most once and that a call after `ttl` has elapsed
invokes `f` again.  The code stores every entry in a `TTLCache` whose TTL is
fixed at 3600 seconds and uses the `ttl` argument only inside the key string,
so both directions fail: with `ttl = 60`, a second call 100 seconds later
(after `ttl` elapsed) still hits the cache and `f` is invoked only once; with
`ttl = 7200`, a second call 3601 seconds later (within `ttl`) misses and `f`
is invoked twice. -/
theorem get_cached_content_ignores_ttl_argument :
    (twoCallFetches "k".data 60 0 100 = 1 ∧ 60 < 100) ∧
    (twoCallFetches "k".data 7200 0 3601 = 2 ∧ 3601 < 7200) := by
  decide

/-! ## RateLimiter: `CanvasRateLimiter` (canvas_api/rate_limiter.py)

`datetime.now()` values are modelled as natural-number seconds and supplied
explicitly at each call; `time.sleep` is modelled by returning the wake time.
All call traces considered are monotone in time, so truncated `Nat`
subtraction agrees with Python's signed `timedelta` arithmetic. -/

/-- The priority tiers of the limiter. -/
inductive Priority where
  | high
  | medium
  | low
  deriving DecidableEq, Repr

/-- The `CanvasRateLimiter` instance state (constructor, lines 9-17). -/
structure RLState where
  maxPerMinute : Nat
  requestTimes : List Nat
  lastReset : Nat
  queueHigh : List Nat
  queueMedium : List Nat
  queueLow : List Nat
  deriving Repr

/-- `CanvasRateLimiter(max_requests_per_minute)` constructed at time `t0`. -/
def initRL (maxPerMinute t0 : Nat) : RLState :=
  ⟨maxPerMinute, [], t0, [], [], []⟩

/-- The shared wait-out-the-window path (source lines 43-49, 53-59, 63-68):
compute `wait_time = 60 - (now - request_times[0])`; if positive, sleep that
long, clear `request_times`, and set `last_reset` to the wake time (the
`datetime.now()` after sleeping).  Returns `none` when the wait is not
positive, in which case the source falls through.  `request_times[0]` on an
empty list would raise `IndexError` in Python; with the default limit of 60
every branch that reaches this has a nonempty list, and the model uses
`headD 0` for that unreachable case. -/
def rlWait (s : RLState) (now : Nat) : Option (RLState × Nat) :=
  let oldest := s.requestTimes.headD 0
  let wt : Int := 60 - ((now : Int) - (oldest : Int))
  if 0 < wt then
    some ({ s with requestTimes := [], lastReset := now + wt.toNat }, now + wt.toNat)
  else none

/-- `wait_if_needed(priority)` (source lines 19-68) called at time `now`.
Returns the new state and the wake time (equal to `now` when no sleep
happened). -/
def wait_if_needed (s : RLState) (p : Priority) (now : Nat) : RLState × Nat :=
  -- reset request times if a minute has passed since the last reset
  let s :=
    if 60 < now - s.lastReset then
      { s with requestTimes := [], lastReset := now,
               queueHigh := [], queueMedium := [], queueLow := [] }
    else s
  -- remove requests older than one minute
  let s := { s with requestTimes := s.requestTimes.filter (fun t => now - t < 60) }
  let slots : Int := (s.maxPerMinute : Int) - (s.requestTimes.length : Int)
  -- the 90%-of-limit check (lines 62-68); `60 * 0.9` is exactly `54.0` in
  -- IEEE double arithmetic, so the float comparison is the rational one
  let nearLimit : RLState × Nat :=
    if 9 * s.maxPerMinute ≤ 10 * s.requestTimes.length then
      match rlWait s now with
      | some r => r
      | none => (s, now)
    else (s, now)
  match p with
  | .high => if 0 < slots then (s, now) else nearLimit
  | .medium =>
    if s.queueHigh ≠ [] ∧ slots ≤ 2 then
      match rlWait s now with
      | some r => r
      | none => nearLimit
    else nearLimit
  | .low =>
    if (s.queueHigh ≠ [] ∨ s.queueMedium ≠ []) ∧ slots ≤ 1 then
      match rlWait s now with
      | some r => r
      | none => nearLimit
    else nearLimit

/-- `add_request(priority)` (source lines 70-73) called at time `now`. -/
def add_request (s : RLState) (p : Priority) (now : Nat) : RLState :=
  let s := { s with requestTimes := s.requestTimes ++ [now] }
  match p with
  | .high => { s with queueHigh := s.queueHigh ++ [now] }
  | .medium => { s with queueMedium := s.queueMedium ++ [now] }
  | .low => { s with queueLow := s.queueLow ++ [now] }

/-- One call of a rate-limiter client: either `wait_if_needed` or
`add_request`, with the priority and the wall-clock time of the call. -/
inductive RLOp where
  | waitOp : Priority → Nat → RLOp
  | recordOp : Priority → Nat → RLOp
  deriving Repr

/-- Run a call sequence against the limiter, collecting the times of all
`add_request` calls and the sleep durations incurred by the waits. -/
def runRL (s : RLState) : List RLOp → RLState × List Nat × List Nat
  | [] => (s, [], [])
  | RLOp.waitOp p now :: rest =>
    let r := wait_if_needed s p now
    let rec' := runRL r.1 rest
    (rec'.1, rec'.2.1, (r.2 - now) :: rec'.2.2)
  | RLOp.recordOp p now :: rest =>
    let rec' := runRL (add_request s p now) rest
    (rec'.1, now :: rec'.2.1, rec'.2.2)

/-- A trace of a well-behaved client: 60 high-priority
`wait_if_needed`/`add_request` pairs at `t = 59`, then one more pair at
`t = 61`, against a fresh limiter created at `t = 0` with the default limit
of 60 requests per minute. -/
def rlViolationTrace : List RLOp :=
  (List.range 60).flatMap (fun _ => [RLOp.waitOp .high 59, RLOp.recordOp .high 59])
    ++ [RLOp.waitOp .high 61, RLOp.recordOp .high 61]

/-- **C5** (code bug): the claim states that no more than
`maxRequestsPerMinute` (60) `recordRequest` calls occur within any rolling
60-second window, for every sequence of `waitIfNeeded`/`recordRequest` calls.
In the trace modelled here the client calls `wait_if_needed` before every
`add_request` and none of the waits ever sleeps, yet 61 recorded requests
fall inside the rolling window `[59, 119)`: the 61st `wait_if_needed` (at
`t = 61`) finds `now - last_reset > 60`, wipes `request_times` — forgetting
60 requests that are only 2 seconds old — and admits the request
immediately. -/
theorem rate_limiter_window_bound_violated :
    (runRL (initRL 60 0) rlViolationTrace).2.2.all (· == 0) = true ∧
    (runRL (initRL 60 0) rlViolationTrace).2.1.countP
        (fun t => decide (59 ≤ t) && decide (t < 119)) = 61 ∧
    60 < 61 := by
  decide

/-! ## VectorIndex persistence (processing/retriever.py)

The on-disk state is an association list from paths (as `List Char`) to
written artifacts.  As noted in the header, `processing/retriever.py` defines
`save_faiss_index` and `retrieve_chunks` twice; the embeddings here follow
the *later*, effective definitions (lines 120-130 and 132-152), while
`get_index_path` and `load_faiss_index` (lines 16-37) are only defined
once. -/

/-- An in-memory FAISS index as built by the effective `save_faiss_index`
(a flat L2 index): the vector dimension and the inserted vectors, with
float components modelled as rationals. -/
structure FaissIndex where
  dim : Nat
  vecs : List (List Rat)
  deriving DecidableEq, Repr

/-- A file written to the vector store: either a FAISS index file
(`faiss.write_index`) or a pickled chunk-metadata list (`pickle.dump`). -/
inductive Artifact where
  | faissFile : FaissIndex → Artifact
  | pickleFile : List String → Artifact
  deriving DecidableEq, Repr

/-- A path on disk. -/
abbrev DiskPath := List Char

/-- The on-disk store, most recent write first. -/
abbrev FileStore := List (DiskPath × Artifact)

/-- Write a file, replacing any previous file at the same path. -/
def fsWrite (fs : FileStore) (p : DiskPath) (a : Artifact) : FileStore :=
  (p, a) :: fs.filter (fun e => !(e.1 == p))

/-- `os.path.exists`. -/
def fsExists (fs : FileStore) (p : DiskPath) : Bool :=
  fs.any (fun e => e.1 == p)

/-- Read the file at a path, if present. -/
def fsRead (fs : FileStore) (p : DiskPath) : Option Artifact :=
  (fs.find? (fun e => e.1 == p)).map (·.2)

/-- `VECTOR_DIR = "vectorstore/course_index"`. -/
def VECTOR_DIR : DiskPath :=
  "vectorstore/course_index".data

/-- Python f-string path joining: `f"{a}/{b}"`. -/
def pathJoin (a b : DiskPath) : DiskPath :=
  a ++ '/' :: b

/-- `clean_section_name` (retriever.py lines 117-118):
`name.lower().replace(" ", "_").replace("-", "_").replace("/", "_")`. -/
def clean_section_name (name : DiskPath) : DiskPath :=
  name.map (fun c =>
    let lc := c.toLower
    if lc == ' ' || lc == '-' || lc == '/' then '_' else lc)

/-- `get_index_path(section, course_id)` (retriever.py lines 16-20): the
index and metadata paths `VECTOR_DIR/course_id/section/{index.faiss,
metadata.pkl}` (the `mkdir` side effect is immaterial to the flat store
model). -/
def get_index_path (sectionL cid : DiskPath) : DiskPath × DiskPath :=
  let base := pathJoin (pathJoin VECTOR_DIR cid) sectionL
  (pathJoin base "index.faiss".data, pathJoin base "metadata.pkl".data)

/-- `load_faiss_index(section, course_id)` (retriever.py lines 22-37): raise
`FileNotFoundError` when either artifact is missing, otherwise read both (a
read of a corrupted artifact is logged and re-raised, modelled as
`valueError`).  The `lru_cache` decorator is immaterial to a single call
against a fixed store. -/
def load_faiss_index (sectionL cid : DiskPath) (fs : FileStore) :
    Except PyErr (FaissIndex × List String) :=
  let paths := get_index_path sectionL cid
  if fsExists fs paths.1 && fsExists fs paths.2 then
    match fsRead fs paths.1, fsRead fs paths.2 with
    | some (Artifact.faissFile idx), some (Artifact.pickleFile md) => .ok (idx, md)
    | _, _ => .error .valueError
  else .error .fileNotFoundError

/-- The *effective* `save_faiss_index(embeddings, chunks, section, course_id)`
(retriever.py lines 132-152, which shadows the definition at lines 39-69):
raise `ValueError` on empty embeddings, build a flat L2 index over the
vectors, and write it to `f"{VECTOR_DIR}/{course_id}/{name}.index"` with the
pickled chunks at `f"{VECTOR_DIR}/{course_id}/{name}_meta.pkl"`, where
`name = clean_section_name(section)`. -/
def save_faiss_index (embeddings : List (List Rat)) (chunks : List String)
    (sectionL : DiskPath) (cid : Option DiskPath) (fs : FileStore) :
    Except PyErr FileStore :=
  if embeddings = [] then .error .valueError
  else
    let dim := (embeddings.headD []).length
    let index : FaissIndex := ⟨dim, embeddings⟩
    let courseFolder :=
      match cid with
      | some c => pathJoin VECTOR_DIR c
      | none => VECTOR_DIR
    let indexPath := pathJoin courseFolder (clean_section_name sectionL) ++ ".index".data
    let metaPath := pathJoin courseFolder (clean_section_name sectionL) ++ "_meta.pkl".data
    .ok (fsWrite (fsWrite fs indexPath (Artifact.faissFile index))
          metaPath (Artifact.pickleFile chunks))

/-- The last character of a path determined by its literal suffix. -/
theorem pathLast_of_suffix (a b : List Char) (c : Char) (hb : b ≠ [])
    (h : b.getLast? = some c) : (a ++ b).getLast? = some c := by
  rw [List.getLast?_append_of_ne_nil a hb]
  exact h

/-- Paths with different last characters are different. -/
theorem path_ne_of_last_ne (p q : DiskPath) (c d : Char)
    (hp : p.getLast? = some c) (hq : q.getLast? = some d) (hcd : c ≠ d) :
    ¬ p = q := by
  intro h
  rw [h, hq] at hp
  exact hcd (Option.some.inj hp).symm

/-- Writing two files with distinct paths into the empty store yields exactly
those two entries. -/
theorem fs_two_writes (p1 p2 : DiskPath) (a b : Artifact) (h : ¬ p1 = p2) :
    fsWrite (fsWrite [] p1 a) p2 b = [(p2, b), (p1, a)] := by
  simp [fsWrite, h]

/-- When the index-file path does not exist, `load_faiss_index` raises
`FileNotFoundError`. -/
theorem load_of_index_missing (sectionL cid : DiskPath) (fs : FileStore)
    (h : fsExists fs (get_index_path sectionL cid).1 = false) :
    load_faiss_index sectionL cid fs = .error .fileNotFoundError := by
  simp [load_faiss_index, h]

/-- **C2** (code bug): the claim states that `persist` (`save_faiss_index`)
followed by `load` (`load_faiss_index`) for the same `(courseId,
sectionLabel)` succeeds and returns an equivalent index.  In the code the
effective `save_faiss_index` (lines 132-152, shadowing the earlier
definition that used `get_index_path`) writes
`VECTOR_DIR/course/section.index` and `VECTOR_DIR/course/section_meta.pkl`,
while `load_faiss_index` looks for `VECTOR_DIR/course/section/index.faiss`
and `VECTOR_DIR/course/section/metadata.pkl`: for every section label and
course id the written paths differ from the read paths (their final
characters already differ), so the load after a save into an empty store
always raises `FileNotFoundError`. -/
theorem save_load_roundtrip_fails (embeddings : List (List Rat))
    (chunks : List String) (sectionL cid : DiskPath) (h : embeddings ≠ []) :
    ∃ fs, save_faiss_index embeddings chunks sectionL (some cid) [] = .ok fs ∧
      load_faiss_index sectionL cid fs = .error PyErr.fileNotFoundError := by
  have hip : (pathJoin (pathJoin VECTOR_DIR cid) (clean_section_name sectionL)
      ++ ".index".data).getLast? = some 'x' :=
    pathLast_of_suffix _ _ _ (by decide) (by decide)
  have hmp : (pathJoin (pathJoin VECTOR_DIR cid) (clean_section_name sectionL)
      ++ "_meta.pkl".data).getLast? = some 'l' :=
    pathLast_of_suffix _ _ _ (by decide) (by decide)
  have hlip : (pathJoin (pathJoin (pathJoin VECTOR_DIR cid) sectionL)
      "index.faiss".data).getLast? = some 's' :=
    pathLast_of_suffix _ _ _ (by decide) (by decide)
  have h0 : ¬ (pathJoin (pathJoin VECTOR_DIR cid) (clean_section_name sectionL)
      ++ ".index".data)
      = pathJoin (pathJoin VECTOR_DIR cid) (clean_section_name sectionL)
      ++ "_meta.pkl".data :=
    path_ne_of_last_ne _ _ _ _ hip hmp (by decide)
  have h1 : ¬ (pathJoin (pathJoin VECTOR_DIR cid) (clean_section_name sectionL)
      ++ "_meta.pkl".data)
      = pathJoin (pathJoin (pathJoin VECTOR_DIR cid) sectionL) "index.faiss".data :=
    path_ne_of_last_ne _ _ _ _ hmp hlip (by decide)
  have h2 : ¬ (pathJoin (pathJoin VECTOR_DIR cid) (clean_section_name sectionL)
      ++ ".index".data)
      = pathJoin (pathJoin (pathJoin VECTOR_DIR cid) sectionL) "index.faiss".data :=
    path_ne_of_last_ne _ _ _ _ hip hlip (by decide)
  refine ⟨[(pathJoin (pathJoin VECTOR_DIR cid) (clean_section_name sectionL)
        ++ "_meta.pkl".data, Artifact.pickleFile chunks),
      (pathJoin (pathJoin VECTOR_DIR cid) (clean_section_name sectionL)
        ++ ".index".data,
        Artifact.faissFile ⟨(embeddings.headD []).length, embeddings⟩)], ?_, ?_⟩
  · show (if embeddings = [] then (Except.error PyErr.valueError) else _) = _
    rw [if_neg h]
    exact congrArg Except.ok (fs_two_writes _ _ _ _ h0)
  · apply load_of_index_missing
    show ((pathJoin (pathJoin VECTOR_DIR cid) (clean_section_name sectionL)
        ++ "_meta.pkl".data
        == pathJoin (pathJoin (pathJoin VECTOR_DIR cid) sectionL)
            "index.faiss".data)
      || ((pathJoin (pathJoin VECTOR_DIR cid) (clean_section_name sectionL)
        ++ ".index".data
        == pathJoin (pathJoin (pathJoin VECTOR_DIR cid) sectionL)
            "index.faiss".data)
      || false)) = false
    rw [beq_eq_false_iff_ne.mpr h1, beq_eq_false_iff_ne.mpr h2]
    rfl

/-- Witness for C2 at the concrete key `("syllabus", "100")` with one
embedded chunk. -/
theorem save_load_roundtrip_fails_witness :
    ∃ fs, save_faiss_index [[(1 : Rat)]] ["chunk"] "syllabus".data
        (some "100".data) [] = .ok fs ∧
      load_faiss_index "syllabus".data "100".data fs
        = .error PyErr.fileNotFoundError :=
  save_load_roundtrip_fails [[(1 : Rat)]] ["chunk"] "syllabus".data "100".data
    (by decide)

/-! ## Chunk retrieval (processing/retriever.py lines 120-130 and
course_index/search.py lines 4-8) -/

/-- Python list indexing `l[i]` with an `int` index: negative indices count
from the end of the list; out-of-range indices raise `IndexError`. -/
def pyListGet (l : List String) (i : Int) : Except PyErr String :=
  if 0 ≤ i then
    if i.toNat < l.length then .ok (l.getD i.toNat "") else .error .indexError
  else
    if (-i).toNat ≤ l.length then .ok (l.getD (l.length - (-i).toNat) "")
    else .error .indexError

/-- The list comprehension `[metadata[i] for i in indices[0] if i <
len(metadata)]`, which appears verbatim in both `retrieve_chunks`
(retriever.py line 128) and `search_index` (course_index/search.py line 7).
The guard admits negative ids, for which `metadata[i]` wraps around per
Python indexing. -/
def gatherChunks (metadata : List String) (indices : List Int) :
    Except PyErr (List String) :=
  indices.foldlM
    (fun acc i =>
      if i < (metadata.length : Int) then do
        let c ← pyListGet metadata i
        pure (acc ++ [c])
      else pure acc)
    []

/-- The oracle signature for the native FAISS `index.search(query_vecs, k)`
call: given the index, the query vector and `k`, produce the neighbor-id row
`indices[0]`.  FAISS pads the row with the sentinel `-1` when fewer than `k`
neighbors exist. -/
abbrev SearchOracle := FaissIndex → List Rat → Nat → List Int

/-- The *effective* `retrieve_chunks(question, section, course_id, top_k=5)`
(retriever.py lines 120-130, which shadows the deduplicating definition at
lines 71-115): load the persisted index and metadata, embed the question
(`get_embedding`, an external call modelled by the `embed` oracle), search,
and gather `[metadata[i] for i in indices[0] if i < len(metadata)]`.
There is no deduplication and no filtering of negative ids. -/
def retrieve_chunks (search : SearchOracle) (embed : String → List Rat)
    (question : String) (sectionL cid : DiskPath) (topK : Nat) (fs : FileStore) :
    Except PyErr (List String) := do
  let im ← load_faiss_index sectionL cid fs
  let queryVec := embed question
  let indices := search im.1 queryVec topK
  gatherChunks im.2 indices

/-- `search_index(index, query, metadata, top_k=3)` (course_index/search.py
lines 4-8): embed the query (`embed_texts`, modelled by the `embedTexts`
oracle), search the given index, and gather
`[metadata[i] for i in indices[0] if i < len(metadata)]`. -/
def search_index (search : SearchOracle) (embedTexts : String → List Rat)
    (index : FaissIndex) (query : String) (metadata : List String)
    (topK : Nat) : Except PyErr (List String) :=
  gatherChunks metadata (search index (embedTexts query) topK)

/-- A small flat index used in the concrete retrieval scenarios. -/
def demoIndex : FaissIndex :=
  ⟨2, [[1, 0], [0, 1]]⟩

/-- A store holding a persisted index for `("syllabus", "100")` at exactly
the paths `load_faiss_index` reads, with the given chunk metadata. -/
def demoStore (metadata : List String) : FileStore :=
  [((get_index_path "syllabus".data "100".data).1, Artifact.faissFile demoIndex),
   ((get_index_path "syllabus".data "100".data).2, Artifact.pickleFile metadata)]

/-- **C6** (code bug): the claim states that the ranked chunk list returned
by `retrieve_chunks` contains no two chunks with identical
whitespace-collapsed text.  The effective `retrieve_chunks` (lines 120-130,
shadowing the first definition whose docstring promises "Avoid duplicate
content") performs no deduplication: with metadata `["dup text",
"dup  text"]` — two chunks whose whitespace-collapsed texts coincide — and a
search returning ids `[0, 1]`, both chunks are returned. -/
theorem retrieve_chunks_returns_duplicates :
    retrieve_chunks (fun _ _ _ => [0, 1]) (fun _ => [1, 0]) "q" "syllabus".data
        "100".data 5 (demoStore ["dup text", "dup  text"])
      = .ok ["dup text", "dup  text"]
    ∧ cleanText "dup text".data = cleanText "dup  text".data :=
  ⟨rfl, rfl⟩

/-- **C10** (code bug): the claim states that a sentinel id `-1` (used by the
similarity search to pad an underfull result) never contributes a chunk.
Both gathering sites guard only with `i < len(metadata)`, which negative ids
pass, and `metadata[-1]` is the *last* metadata element under Python
indexing: `retrieve_chunks` with search row `[0, -1]` over metadata
`["first", "last"]` returns `["first", "last"]`, and `search_index` with row
`[-1]` over `["a", "b"]` returns `["b"]`. -/
theorem sentinel_index_contributes_chunk :
    retrieve_chunks (fun _ _ _ => [0, -1]) (fun _ => [1, 0]) "q" "syllabus".data
        "100".data 5 (demoStore ["first", "last"]) = .ok ["first", "last"]
    ∧ search_index (fun _ _ _ => [-1]) (fun _ => [1, 0]) demoIndex "q"
        ["a", "b"] 3 = .ok ["b"] :=
  ⟨rfl, rfl⟩

/-! ## RAG orchestration: `get_relevant_context` (qa_engine_rag.py
lines 123-149) -/

/-- Side effects observable during `get_relevant_context`: attempted index
loads (performed inside `retrieve_chunks`), index builds/persists
(`save_faiss_index`) and section-content fetches (`get_section_content`).
The latter two constructors exist so that the *absence* of any rebuild step
is expressible; no statement in the source of `get_relevant_context` invokes
them. -/
inductive Effect where
  | loadIndex : DiskPath → DiskPath → Effect
  | buildIndex : DiskPath → DiskPath → Effect
  | fetchSection : DiskPath → Effect
  deriving DecidableEq, Repr

/-- The collaborators of `get_relevant_context`: `get_course_id` (course
matching, returning the stringified course id), `get_section_data(...)`'s
key list, the FAISS search and embedding oracles, and the on-disk store. -/
structure RagEnv where
  getCourseId : String → Option DiskPath
  sectionKeys : DiskPath → List DiskPath
  search : SearchOracle
  embed : String → List Rat
  fs : FileStore

/-- `"\n\n".join(chunks)`. -/
def joinChunks (chunks : List String) : String :=
  String.intercalate "\n\n" chunks

/-- The `for section in section_data.keys()` loop (lines 141-144): retrieve
chunks per section, returning at the first section with any chunks; a raised
exception aborts the loop and is caught by the handler at lines 147-149,
which returns `""`. -/
def sectionsLoop (env : RagEnv) (question : String) (cid : DiskPath) :
    List DiskPath → List Effect → String × List Effect
  | [], effs => ("", effs)
  | s :: rest, effs =>
    let effs' := effs ++ [Effect.loadIndex s cid]
    match retrieve_chunks env.search env.embed question s cid 5 env.fs with
    | .error _ => ("", effs')
    | .ok chunks =>
      if chunks ≠ [] then (joinChunks chunks, effs')
      else sectionsLoop env question cid rest effs'

/-- `get_relevant_context(question, course_name, section)` (qa_engine_rag.py
lines 123-149).  Returns the context string together with the effect trace.
Any exception raised inside the body (in particular the
`FileNotFoundError` surfacing from `load_faiss_index` through the effective
`retrieve_chunks`) is caught by the `except` clause, which returns `""`. -/
def get_relevant_context (env : RagEnv) (question courseName : String)
    (sectionOpt : Option DiskPath) : String × List Effect :=
  match env.getCourseId courseName with
  | none => ("", [])
  | some cid =>
    match sectionOpt with
    | some s =>
      match retrieve_chunks env.search env.embed question s cid 5 env.fs with
      | .error _ => ("", [Effect.loadIndex s cid])
      | .ok chunks =>
        if chunks ≠ [] then (joinChunks chunks, [Effect.loadIndex s cid])
        else ("", [Effect.loadIndex s cid])
    | none =>
      match env.sectionKeys cid with
      | [] => ("", [])
      | k :: ks => sectionsLoop env question cid (k :: ks) []

/-- Whether an effect is part of an index rebuild (a section-content fetch
or an index build/persist). -/
def Effect.isRebuildStep : Effect → Bool
  | Effect.buildIndex _ _ => true
  | Effect.fetchSection _ => true
  | Effect.loadIndex _ _ => false

/-- A pipeline environment whose store holds no index at all: course "IS 327"
resolves to id 100, but nothing was ever persisted. -/
def ragEnvC3 : RagEnv :=
  ⟨fun _ => some "100".data, fun _ => [], fun _ _ _ => [], fun _ => [], []⟩

/-- **C3 counterexample**: the claim states that targeting a (course,
section) with no persisted index triggers an index (re)build — fetch,
chunk, build, persist.  Running `get_relevant_context` against a store with
no index produces an effect trace consisting of the single failed load and
returns the empty context: no fetch, no build, no persist occurs anywhere in
the source of this function. -/
theorem get_relevant_context_no_rebuild_on_missing_index :
    get_relevant_context ragEnvC3 "When are office hours?" "IS 327"
        (some "Syllabus".data)
      = ("", [Effect.loadIndex "Syllabus".data "100".data])
    ∧ (get_relevant_context ragEnvC3 "When are office hours?" "IS 327"
        (some "Syllabus".data)).2.all (fun e => ! e.isRebuildStep) = true := by
  exact ⟨by decide, by decide⟩

/-- **C3** (corrected): when no persisted index exists for the targeted
(course, section), the `FileNotFoundError` raised by `load_faiss_index`
propagates through the effective `retrieve_chunks` to the `except` handler
of `get_relevant_context`, which returns the empty context string; no
rebuild (no section fetch, no chunking, no index build or persist) is
attempted. -/
theorem get_relevant_context_swallows_missing_index (env : RagEnv)
    (question courseName : String) (s cid : DiskPath)
    (hcid : env.getCourseId courseName = some cid)
    (hmiss : fsExists env.fs (get_index_path s cid).1 = false) :
    get_relevant_context env question courseName (some s)
      = ("", [Effect.loadIndex s cid]) := by
  have hload : load_faiss_index s cid env.fs = .error .fileNotFoundError :=
    load_of_index_missing s cid env.fs hmiss
  have hretr : retrieve_chunks env.search env.embed question s cid 5 env.fs
      = .error PyErr.fileNotFoundError := by
    unfold retrieve_chunks
    rw [hload]
    rfl
  simp [get_relevant_context, hcid, hretr]

/-- Witness for C3 at the concrete environment with an empty store. -/
theorem get_relevant_context_swallows_missing_index_witness :
    get_relevant_context ragEnvC3 "When are office hours?" "IS 327"
        (some "Assignments".data)
      = ("", [Effect.loadIndex "Assignments".data "100".data]) :=
  get_relevant_context_swallows_missing_index ragEnvC3 "When are office hours?"
    "IS 327" "Assignments".data "100".data rfl rfl

/-! ## SectionRanker: `ask_gpt_section_ranker` (processing/section_picker.py
lines 8-71) -/

/-- Python substring containment `needle in haystack`. -/
def containsSub (needle : List Char) : List Char → Bool
  | [] => needle.isEmpty
  | c :: rest => needle.isPrefixOf (c :: rest) || containsSub needle rest

/-- Python `str.lower()` (ASCII). -/
def pyLower (s : String) : String :=
  String.mk (s.data.map Char.toLower)

/-- Metadata of one Canvas tab as produced by `get_section_data`
(fetch_section_data.py lines 341-346); only the `type` field is consulted by
the ranker. -/
structure TabMeta where
  type : String
  deriving DecidableEq, Repr

/-- The keyword table (section_picker.py lines 28-37), in dict insertion
order. -/
def sectionKeywords : List (String × List String) :=
  [("Syllabus", ["office hours", "instructor", "professor", "teacher",
      "contact", "policy", "policies", "grading", "schedule", "attendance"]),
   ("Home", ["welcome", "overview", "introduction", "about", "zoom", "meeting"]),
   ("Assignments", ["homework", "assignment", "due", "deadline", "submit",
      "quiz", "exam"]),
   ("Modules", ["lecture", "week", "topic", "content", "material", "reading"]),
   ("Announcements", ["announcement", "update", "news", "reminder"]),
   ("Discussions", ["discussion", "forum", "post", "thread", "reply"]),
   ("Grades", ["grade", "score", "point", "mark", "evaluation"]),
   ("People", ["classmate", "student", "instructor", "ta", "teaching assistant"])]

/-- `allowed = [tab for tab, meta in section_data.items() if
meta.get("type") == "internal"]` (line 9). -/
def allowedTabs (sectionData : List (String × TabMeta)) : List String :=
  (sectionData.filter (fun e => e.2.type == "internal")).map (·.1)

/-- The keyword stage (lines 39-44): the sections of the keyword table, in
table order, that are allowed and have a keyword occurring in the lowercased
question. -/
def keywordMatchedSections (question : String) (allowed : List String) :
    List String :=
  (sectionKeywords.filter (fun e =>
      allowed.contains e.1
        && e.2.any (fun w => containsSub w.data (pyLower question).data))).map (·.1)

/-- `ask_gpt_section_ranker(question, section_data)` (lines 8-71).  The LLM
call `ask_gpt` (whose own `except` clause turns any failure into an error
*string*, utils/gpt.py lines 6-18) is modelled by the `askGpt` oracle
producing the response text; the prompt text built at lines 51-64 is
presentation-only and not modelled.  Python `eval(response.strip())`
followed by iterating the result is modelled by the `evalList` oracle:
`some l` when `eval` succeeds and the comprehension at line 69 sees the
items `l`, `none` when `eval` or the iteration raises (the bare `except`
then returns `allowed[:1]`, line 71). -/
def ask_gpt_section_ranker (askGpt : Unit → String)
    (evalList : String → Option (List String)) (question : String)
    (sectionData : List (String × TabMeta)) : List String :=
  let allowed := allowedTabs sectionData
  if allowed = [] then []
  else
    let matched := keywordMatchedSections question allowed
    if matched ≠ [] then matched.take 3
    else
      let response := askGpt ()
      match evalList (String.mk (pyStrip response.data)) with
      | some ranked => ranked.filter (fun r => allowed.contains r)
      | none => allowed.take 1

/-- Section data with two internal tabs, neither of which appears in the
keyword table, so the keyword stage never fires. -/
def sdC7 : List (String × TabMeta) :=
  [("Files", ⟨"internal"⟩), ("Pages", ⟨"internal"⟩)]

/-- **C7 counterexample**: the claim states that when the LLM output cannot
be parsed into available section names, the ranker returns a *fixed* default
ordering of commonly useful sections intersected with the available ones.
Two such failure runs over the same available sections return *different*
results — `[]` when `eval` succeeds but yields no valid name, `["Files"]`
(= `allowed[:1]`) when `eval` fails — so no fixed list intersected with the
available sections can describe the fallback. -/
theorem section_ranker_fallback_not_fixed_default :
    ask_gpt_section_ranker (fun _ => "[\"Bogus\"]") (fun _ => some ["Bogus"])
        "where are the lecture slides" sdC7 = []
    ∧ ask_gpt_section_ranker (fun _ => "nonsense") (fun _ => none)
        "where are the lecture slides" sdC7 = ["Files"]
    ∧ ¬ ∃ defaults : List String,
        ([] : List String)
            = (defaults.filter (fun d => (allowedTabs sdC7).contains d)).take 3
        ∧ ["Files"]
            = (defaults.filter (fun d => (allowedTabs sdC7).contains d)).take 3 := by
  refine ⟨rfl, rfl, ?_⟩
  rintro ⟨defaults, h1, h2⟩
  rw [← h1] at h2
  simp at h2

/-- **C7** (corrected): with no keyword match and a non-empty allowed set,
`ask_gpt_section_ranker` never raises — `ask_gpt` converts its own failures
into an error string, and the bare `except` around `eval` catches every
parse failure — but the degraded result is not a fixed default ordering:
when the response cannot be parsed the ranker returns `allowed[:1]` (the
first available internal section), and when the response parses it returns
exactly the parsed names that are available, which may be the empty list. -/
theorem section_ranker_fallback_behavior (askGpt : Unit → String)
    (evalList : String → Option (List String)) (question : String)
    (sectionData : List (String × TabMeta))
    (hkw : keywordMatchedSections question (allowedTabs sectionData) = [])
    (hne : allowedTabs sectionData ≠ []) :
    ask_gpt_section_ranker askGpt evalList question sectionData
      = match evalList (String.mk (pyStrip (askGpt ()).data)) with
        | some ranked =>
            ranked.filter (fun r => (allowedTabs sectionData).contains r)
        | none => (allowedTabs sectionData).take 1 := by
  simp [ask_gpt_section_ranker, hkw, hne]

/-- Witness for C7 at a concrete failing LLM call. -/
theorem section_ranker_fallback_behavior_witness :
    ask_gpt_section_ranker (fun _ => "oops") (fun _ => none)
        "when do we meet for the midterm review" sdC7 = ["Files"] :=
  (section_ranker_fallback_behavior (fun _ => "oops") (fun _ => none)
    "when do we meet for the midterm review" sdC7 rfl (by decide)).trans rfl

/-! ## CourseResolver: `match_course_name_gpt` (processing/course_matcher.py
lines 22-89) -/

/-- Scan for `re.sub(r'(\w+)\s+(\d+)', r'\1\2', s)`.  A match exists at a
position iff the maximal word-character run starting there is nonempty and
is followed by a nonempty whitespace run and then at least one digit; the
replacement keeps the word run and the maximal digit run and drops the
whitespace, and scanning resumes after the consumed match.  On failure the
scan advances one character.  The fuel parameter — instantiated with the
length of the list, which bounds the number of steps since every step
consumes at least one character — makes the recursion structural. -/
def collapseCodeSpacingAux : Nat → List Char → List Char
  | 0, l => l
  | _ + 1, [] => []
  | fuel + 1, c :: rest =>
    if isWordChar c then
      let afterW := (c :: rest).dropWhile isWordChar
      let sp := afterW.takeWhile pyIsSpace
      let afterS := afterW.dropWhile pyIsSpace
      if sp ≠ [] ∧ afterS ≠ [] ∧ (afterS.headD ' ').isDigit then
        (c :: rest).takeWhile isWordChar ++ afterS.takeWhile Char.isDigit
          ++ collapseCodeSpacingAux fuel (afterS.dropWhile Char.isDigit)
      else c :: collapseCodeSpacingAux fuel rest
    else c :: collapseCodeSpacingAux fuel rest

/-- `re.sub(r'(\w+)\s+(\d+)', r'\1\2', s)`: remove the whitespace between a
word run and a following digit run (e.g. `"IS 327"` becomes `"IS327"`). -/
def collapseCodeSpacing (l : List Char) : List Char :=
  collapseCodeSpacingAux l.length l

/-- `normalize_course_name(name)` (course_matcher.py lines 22-27):
`re.sub(r'(\w+)\s+(\d+)', r'\1\2', name.upper())` followed by
`re.sub(r'[^\w\s]', '', ...)` (drop every character that is neither a word
character nor whitespace). -/
def normalize_course_name (l : List Char) : List Char :=
  (collapseCodeSpacing (l.map Char.toUpper)).filter
    (fun c => isWordChar c || pyIsSpace c)

/-- Scan for `re.findall(r'([A-Z]+\d+)', s)`: at each position, a match is a
maximal uppercase-letter run immediately followed by at least one digit; the
match is that run with the maximal digit run, scanning resumes after it, and
a failed position advances by one character.  Fuel as in
`collapseCodeSpacingAux`. -/
def findCourseCodesAux : Nat → List Char → List (List Char)
  | 0, _ => []
  | _ + 1, [] => []
  | fuel + 1, c :: rest =>
    if c.isUpper then
      let afterU := (c :: rest).dropWhile Char.isUpper
      if afterU ≠ [] ∧ (afterU.headD ' ').isDigit then
        ((c :: rest).takeWhile Char.isUpper ++ afterU.takeWhile Char.isDigit)
          :: findCourseCodesAux fuel (afterU.dropWhile Char.isDigit)
      else findCourseCodesAux fuel rest
    else findCourseCodesAux fuel rest

/-- `re.findall(r'([A-Z]+\d+)', s)`: the course codes occurring in a
normalized name, e.g. `["IS327"]`. -/
def findCourseCodes (l : List Char) : List (List Char) :=
  findCourseCodesAux l.length l

/-- A Canvas course as consumed by the matcher: id and display name. -/
structure Course where
  id : Nat
  name : String
  deriving DecidableEq, Repr

/-- How a course was matched (the `match_type` value set by the source). -/
inductive MatchType where
  | exact
  | code
  | gpt
  deriving DecidableEq, Repr

/-- The outcome of `match_course_name_gpt`: a matched course, a
clarification request, or `None`. -/
inductive MatchOutcome where
  | found : Course → MatchType → MatchOutcome
  | clarify : String → MatchOutcome
  | noMatch
  deriving DecidableEq, Repr

/-- Line 51: `query_norm in name_norm or name_norm in query_norm`. -/
def courseSubstrMatch (qn nn : List Char) : Bool :=
  containsSub qn nn || containsSub nn qn

/-- Lines 56-58: `any(qc in course_codes for qc in query_codes)` over the
codes extracted from the normalized name and query. -/
def courseCodeMatch (qn nn : List Char) : Bool :=
  (findCourseCodes qn).any (fun qc => (findCourseCodes nn).contains qc)

/-- The direct-match loop (lines 46-60): the first course matching by
substring — or, failing that for the same course, by course code — is
returned with its match type. -/
def matchLoop (qn : List Char) : List Course → Option (Course × MatchType)
  | [] => none
  | c :: rest =>
    let nn := normalize_course_name c.name.data
    if courseSubstrMatch qn nn then some (c, MatchType.exact)
    else if courseCodeMatch qn nn then some (c, MatchType.code)
    else matchLoop qn rest

/-- Python `str.isdigit`: nonempty and all digits. -/
def pyIsDigitStr (l : List Char) : Bool :=
  !l.isEmpty && l.all Char.isDigit

/-- `match_course_name_gpt(query, courses)` (course_matcher.py lines 29-89)
with a course-list argument.  The GPT fallback call (`ask_gpt`, lines
62-72) is modelled by the `llm` oracle producing the response text (the
prompt text is presentation-only); the returned flag records whether that
fallback was invoked.  The `lru_cache` decorator and the dict-argument
conversion are immaterial here. -/
def match_course_name_gpt (llm : Unit → String) (query : String)
    (courses : List Course) : MatchOutcome × Bool :=
  let qn := normalize_course_name query.data
  match matchLoop qn courses with
  | some cm => (MatchOutcome.found cm.1 cm.2, false)
  | none =>
    let response := pyStrip (llm ()).data
    let digitHit :=
      if pyIsDigitStr response then
        courses.find? (fun c => (Nat.repr c.id).data == response)
      else none
    match digitHit with
    | some c => (MatchOutcome.found c MatchType.gpt, true)
    | none =>
      if "CLARIFY:".data.isPrefixOf response then
        (MatchOutcome.clarify (String.mk (pyStrip (response.drop 9))), true)
      else (MatchOutcome.noMatch, true)

/-- The direct-match predicate of the claim: the normalized query is a
substring of (or contains) the normalized course name, or one of the course
codes extracted from the query equals a code extracted from the name. -/
def courseMatchesQuery (query : String) (c : Course) : Bool :=
  courseSubstrMatch (normalize_course_name query.data)
      (normalize_course_name c.name.data)
    || courseCodeMatch (normalize_course_name query.data)
      (normalize_course_name c.name.data)

/-- The course returned by the direct-match loop is the first course of the
list satisfying the direct-match predicate. -/
theorem matchLoop_eq_find (query : String) (courses : List Course) :
    (matchLoop (normalize_course_name query.data) courses).map Prod.fst
      = courses.find? (courseMatchesQuery query) := by
  induction courses with
  | nil => rfl
  | cons c rest ih =>
    by_cases h1 : courseSubstrMatch (normalize_course_name query.data)
        (normalize_course_name c.name.data) = true
    · simp [matchLoop, List.find?, courseMatchesQuery, h1]
    · by_cases h2 : courseCodeMatch (normalize_course_name query.data)
          (normalize_course_name c.name.data) = true
      · simp [matchLoop, List.find?, courseMatchesQuery, h1, h2]
      · simp only [Bool.not_eq_true] at h1 h2
        simp [matchLoop, List.find?, courseMatchesQuery, h1, h2, ih]

/-- **C8** (confirmed): for every fixed course list and every query that
direct-matches some course — its normalized form is a substring of (or
contains) a normalized course name, or it shares an extracted course code —
`match_course_name_gpt` returns the *first* such course in course-list order
without invoking the LLM fallback. -/
theorem resolve_first_match_without_llm (llm : Unit → String) (query : String)
    (courses : List Course) (c : Course)
    (h : courses.find? (courseMatchesQuery query) = some c) :
    ∃ mt, match_course_name_gpt llm query courses
      = (MatchOutcome.found c mt, false) := by
  have hm := matchLoop_eq_find query courses
  rw [h] at hm
  match hml : matchLoop (normalize_course_name query.data) courses with
  | none => rw [hml] at hm; simp at hm
  | some cm =>
    rw [hml] at hm
    simp at hm
    refine ⟨cm.2, ?_⟩
    simp [match_course_name_gpt, hml, hm]

/-- Witness for C8 on the spec scenario: the query
`"What are office hours for IS327?"` code-matches the course
`IS 327 - Data Science` (both normalize their code to `IS327`). -/
theorem resolve_first_match_without_llm_witness :
    ∃ mt, match_course_name_gpt (fun _ => "None")
        "What are office hours for IS327?" [⟨100, "IS 327 - Data Science"⟩]
      = (MatchOutcome.found ⟨100, "IS 327 - Data Science"⟩ mt, false) :=
  resolve_first_match_without_llm (fun _ => "None")
    "What are office hours for IS327?" [⟨100, "IS 327 - Data Science"⟩]
    ⟨100, "IS 327 - Data Science"⟩ (by decide)

/-! ## Announcements: `parse_date` and `fetch_announcements`
(canvas_api/fetch_section_data.py lines 189-211 and 494-573) -/

/-- `parse_date(date_str)` (lines 189-211) applied to an optional field
value.  Successful string parsing — by `dateutil.parser.parse` or by the
`strptime` format loop — is modelled by the oracle `dparse`, producing an
instant in seconds; `none` means no parse succeeds, which makes line 211
raise `ValueError`.  On a `None` argument, `dateutil_parse(None)` raises
`TypeError`, which the `except (ValueError, TypeError)` clause catches, but
then `datetime.strptime(None, fmt)` raises `TypeError` — the loop catches
only `ValueError` — so `parse_date(None)` raises `TypeError`. -/
def parse_date (dparse : String → Option Nat) (ds : Option String) :
    Except PyErr Nat :=
  match ds with
  | none => .error .typeError
  | some s =>
    match dparse s with
    | some d => .ok d
    | none => .error .valueError

/-- The fields of one raw announcement JSON object consulted by
`fetch_announcements` (the author and attachments fields are carried through
unchanged and are omitted from the model). -/
structure RawAnnouncement where
  title : Option String
  postedAt : Option String
  createdAt : Option String
  updatedAt : Option String
  message : String
  deriving Repr

/-- One formatted announcement (lines 536-548, sans author/attachments). -/
structure FormattedAnnouncement where
  title : String
  postedAt : String
  message : String
  deriving DecidableEq, Repr

/-- The date-resolution loop (lines 514-528): `for date_source in
[posted_at, created_at, updated_at]: posted_at = parse_date(date_source);
if posted_at: break`.  A parsed `datetime` is always truthy in Python, so
the loop breaks right after the first *successful* parse; any error raised
by `parse_date` propagates out of the loop. -/
def resolveDisplayDate (dparse : String → Option Nat) (a : RawAnnouncement) :
    Except PyErr (Option Nat) :=
  [a.postedAt, a.createdAt, a.updatedAt].foldlM
    (fun acc ds =>
      match acc with
      | some d => pure (some d)
      | none => do
        let d ← parse_date dparse ds
        pure (some d))
    none

/-- The result of `fetch_announcements`: the JSON of the formatted list, or
— whenever any exception was raised in the body — the `{"error": ...}` JSON
produced by the handlers at lines 567-573. -/
inductive AnnResult where
  | payload : List FormattedAnnouncement → AnnResult
  | errorJson : AnnResult
  deriving DecidableEq, Repr

/-- The body of `fetch_announcements(course_id, date_range=None)` (lines
494-573) over an already-fetched raw announcement list (the HTTP call is
outside the model, and no date-range filter is given).  Each announcement is
formatted with its resolved display timestamp rendered by the `fmt` oracle
(`strftime("%Y-%m-%d %H:%M:%S UTC")`, line 530), then the list is sorted
newest-first by re-parsing the formatted date string (lines 553-557; the
`or datetime.min` default is unreachable since `parse_date` never returns a
falsy value).  Any raised exception yields the error JSON. -/
def fetch_announcements (dparse : String → Option Nat) (fmt : Nat → String)
    (anns : List RawAnnouncement) : AnnResult :=
  let body : Except PyErr (List FormattedAnnouncement) := do
    let formatted ← anns.mapM (fun a => do
      let d ← resolveDisplayDate dparse a
      let postedStr :=
        match d with
        | some dd => fmt dd
        | none => "[Date Unknown]"
      pure (FormattedAnnouncement.mk (a.title.getD "[Title Unknown]")
        postedStr a.message))
    let keyed ← formatted.mapM (fun f => do
      let k ← parse_date dparse (some f.postedAt)
      pure (f, k))
    pure (((keyed.mergeSort (fun x y => y.2 ≤ x.2)).map Prod.fst))
  match body with
  | .ok l => .payload l
  | .error _ => .errorJson

/-- The parse oracle of the C9 scenario: exactly the ISO timestamp of the
announcement's `created_at` parses. -/
def dparseC9 : String → Option Nat := fun s =>
  if s = "2024-03-20T15:30:00Z" then some 1710948600 else none

/-- An announcement with no `posted_at` but a parseable `created_at`. -/
def annC9 : RawAnnouncement :=
  ⟨some "Midterm moved", none, some "2024-03-20T15:30:00Z", none, "See you there"⟩

/-- **C9** (code bug): the claim states that the announcement fetch resolves
each display timestamp through the fallback chain posted-at → created-at →
updated-at and returns the announcements sorted newest-first.  The fallback
chain is dead code: the loop breaks on any successful parse (a datetime is
always truthy), and when `posted_at` is `None` the very first
`parse_date(None)` call raises `TypeError`, aborting the whole fetch — an
announcement whose `posted_at` is missing but whose `created_at` parses fine
makes `fetch_announcements` return the error JSON instead of a formatted
list. -/
theorem fetch_announcements_fallback_chain_broken :
    dparseC9 "2024-03-20T15:30:00Z" = some 1710948600
    ∧ parse_date dparseC9 none = .error PyErr.typeError
    ∧ fetch_announcements dparseC9 (fun _ => "2024-03-20 15:30:00 UTC") [annC9]
      = AnnResult.errorJson :=
  ⟨rfl, rfl, rfl⟩

end SakuraAI
